import Mathlib

/-!
# Verification of the DAPERL pipeline orchestrator (temporal-daperl)

Shallow embedding of the repository's core:

* `src/daperl/core/types.py` — the `AgentPhase` / `WorkflowStatus` / `ConfidenceLevel` enums
* `src/daperl/core/models.py` — the pydantic result models
* `src/daperl/core/agents.py` — `BaseAgent._get_confidence_level`
* `src/daperl/agents/{detection,analysis,planning,execution,reporting,learning}.py`
  — the result-constructing skeleton of each agent's `execute`
* `src/daperl/workflows/daperl_workflow.py` — `DAPERLWorkflow.run` and its signals
* `src/daperl/storage/json_storage.py` — `store_metric` / `get_recent_metrics`

Modelling conventions:

* Python floats are modelled as `Rat`; all threshold constants in the source
  (0.9, 0.7, 0.5, 1.0, ...) are exact decimals on both sides.
* LLM responses (`complete_with_json` results) are opaque external inputs,
  modelled as a small JSON value type `JValue`; `dict.get(k, d)` becomes
  `jGet`/typed extractors.  A field of the wrong type makes the corresponding
  pydantic model construction raise, modelled as `Except.error`
  (`"ValidationError"` / `"TypeError"`).
* `uuid.uuid4()` default identifiers are modelled by the opaque constant
  `freshId`; `datetime` timestamp fields are omitted (no claim reads them).
* Temporal activity invocations are modelled by an `ActivityOutcome`
  environment: `.ok r` is a successful invocation, `.failed e` an invocation
  whose retry budget was exhausted and whose exception text is `e`
  (it propagates into the workflow's `except Exception` handler).
* `workflow.wait_condition(fn, timeout=...)` follows the Temporal Python SDK
  semantics: it returns when `fn` becomes true and raises
  `asyncio.TimeoutError` (whose `str()` is the empty string) when the deadline
  elapses first.  Signal deliveries are part of the run environment.
-/

namespace Daperl

/-! ## JSON values (LLM responses and opaque dict payloads) -/

/-- Minimal JSON value type used to model `dict` / `list` payloads returned by
`complete_with_json` and stored in `Dict[str, Any]` fields. -/
inductive JValue where
  | null
  | bool (b : Bool)
  | num (q : Rat)
  | str (s : String)
  | arr (items : List JValue)
  | obj (fields : List (String × JValue))
deriving Repr, BEq

/-- Python `d.get(key)` on a dict (`None` on a non-dict or missing key). -/
def jGet : JValue → String → Option JValue
  | .obj fields, key => (fields.find? (fun kv => kv.1 == key)).map (fun kv => kv.2)
  | _, _ => none

/-- Python `key in d`. -/
def jHas (v : JValue) (key : String) : Bool :=
  (jGet v key).isSome

/-- Pydantic `str` field coercion: only a JSON string is accepted. -/
def asStr : JValue → Except String String
  | .str s => .ok s
  | _ => .error "ValidationError"

/-- Python `d.get(key, dflt)` fed into a pydantic `str` field. -/
def getStrD (v : JValue) (key : String) (dflt : String) : Except String String :=
  match jGet v key with
  | none => .ok dflt
  | some w => asStr w

/-- Python `d.get(key, dflt)` used as a number (comparisons / pydantic `float`
field); a non-numeric value raises. -/
def getRatD (v : JValue) (key : String) (dflt : Rat) : Except String Rat :=
  match jGet v key with
  | none => .ok dflt
  | some (.num q) => .ok q
  | some _ => .error "TypeError"

/-- Python `d.get(key, {})` fed into a pydantic `Dict[str, Any]` field. -/
def getObjD (v : JValue) (key : String) : Except String JValue :=
  match jGet v key with
  | none => .ok (JValue.obj [])
  | some (.obj fields) => .ok (JValue.obj fields)
  | some _ => .error "ValidationError"

/-- Python `d.get(key, dflt)` fed into a pydantic `bool` field. -/
def getBoolD (v : JValue) (key : String) (dflt : Bool) : Except String Bool :=
  match jGet v key with
  | none => .ok dflt
  | some (.bool b) => .ok b
  | some _ => .error "ValidationError"

/-- Python `d.get(key, [])` fed into a pydantic `List[str]` field. -/
def getStrList (v : JValue) (key : String) : Except String (List String) :=
  match jGet v key with
  | none => .ok []
  | some (.arr items) => items.mapM asStr
  | some _ => .error "ValidationError"

/-- Python `d.get(key, [])` iterated as a list of JSON values (raises on a
non-list value, as `for` over it would). -/
def getArrD (v : JValue) (key : String) : Except String (List JValue) :=
  match jGet v key with
  | none => .ok []
  | some (.arr items) => .ok items
  | some _ => .error "TypeError"

/-- Opaque stand-in for `str(uuid.uuid4())` default identifiers. -/
def freshId : String := "generated-uuid"

/-- Evaluation rule for `jGet` on a non-empty object. -/
lemma jGet_obj_cons (k : String) (v : JValue) (fields : List (String × JValue)) (key : String) :
    jGet (.obj ((k, v) :: fields)) key = if k = key then some v else jGet (.obj fields) key := by
  simp only [jGet, List.find?_cons]
  by_cases h : k = key
  · simp [h]
  · rw [beq_eq_false_iff_ne.mpr h]
    simp [jGet, h]

/-- Evaluation rule for `jGet` on an empty object. -/
lemma jGet_obj_nil (key : String) : jGet (.obj []) key = none := rfl

/-! ## Enums (`src/daperl/core/types.py`) -/

/-- `WorkflowStatus` enum. -/
inductive WorkflowStatus where
  | initializing
  | detecting
  | analyzing
  | planning
  | pending_approval
  | executing
  | reporting
  | learning
  | completed
  | failed
  | cancelled
deriving Repr, DecidableEq

/-- `ConfidenceLevel` enum. -/
inductive ConfidenceLevel where
  | low
  | medium
  | high
  | very_high
deriving Repr, DecidableEq

/-- `BaseAgent._get_confidence_level` (`src/daperl/core/agents.py`, lines 69-78):
the shared four-bucket mapping from numeric confidence to level. -/
def confidenceLevelOf (confidence : Rat) : ConfidenceLevel :=
  if confidence ≥ 0.9 then .very_high
  else if confidence ≥ 0.7 then .high
  else if confidence ≥ 0.5 then .medium
  else .low

/-! ## Data models (`src/daperl/core/models.py`) -/

/-- `Problem` model. -/
structure Problem where
  id : String
  type : String
  description : String
  severity : String
  data : JValue := .obj []
deriving Repr, BEq

/-- `Action` model (`confidence` carries the pydantic `ge=0, le=1` bound,
enforced at construction sites). -/
structure ActionModel where
  id : String
  action_type : String
  description : String
  target : String
  parameters : JValue := .obj []
  confidence : Rat
  requires_approval : Bool := true
deriving Repr, BEq

/-- `ExecutionPlan` model. -/
structure ExecutionPlan where
  id : String
  actions : List ActionModel
  estimated_duration : Option String := none
  risk_level : String := "medium"
  requires_approval : Bool := true
deriving Repr, BEq

/-- `ActionResult` model. -/
structure ActionResult where
  action_id : String
  success : Bool
  message : String
  data : JValue := .obj []
  error : Option String := none
deriving Repr, BEq

/-- `DetectionResult` model (phase tag carried by the type; `timestamp`
omitted). -/
structure DetectionResult where
  success : Bool
  message : String
  confidence : Rat
  confidence_level : ConfidenceLevel
  problems_detected : Bool := false
  problems : List Problem := []
  summary : String := ""
deriving Repr, BEq

/-- `AnalysisResult` model. -/
structure AnalysisResult where
  success : Bool
  message : String
  confidence : Rat
  confidence_level : ConfidenceLevel
  analyzed_problems : List Problem := []
  root_causes : List String := []
  recommendations : List String := []
  analysis_summary : String := ""
deriving Repr, BEq

/-- `PlanningResult` model. -/
structure PlanningResult where
  success : Bool
  message : String
  confidence : Rat
  confidence_level : ConfidenceLevel
  plan : Option ExecutionPlan := none
  alternatives : List ExecutionPlan := []
  planning_summary : String := ""
deriving Repr, BEq

/-- `ExecutionResult` model. -/
structure ExecutionResult where
  success : Bool
  message : String
  confidence : Rat
  confidence_level : ConfidenceLevel
  plan_id : String
  actions_executed : List ActionResult := []
  success_count : Nat := 0
  failure_count : Nat := 0
  execution_summary : String := ""
deriving Repr, BEq

/-- `ReportingResult` model. -/
structure ReportingResult where
  success : Bool
  message : String
  confidence : Rat
  confidence_level : ConfidenceLevel
  report : String
  metrics : JValue := .obj []
  recommendations : List String := []
deriving Repr, BEq

/-- `LearningInsight` model (`created_at` omitted). -/
structure LearningInsight where
  id : String
  insight_type : String
  description : String
  confidence : Rat
  supporting_executions : List String := []
deriving Repr, BEq

/-- `LearningResult` model. -/
structure LearningResult where
  success : Bool
  message : String
  confidence : Rat
  confidence_level : ConfidenceLevel
  insights : List LearningInsight := []
  patterns_found : Int := 0
  recommendations : List String := []
  learning_summary : String := ""
deriving Repr, BEq

/-- `DAPERLInput` model (opaque payloads kept as `JValue`). -/
structure DAPERLInput where
  domain : String
  data : JValue := .obj []
  config : JValue := .obj []
  auto_approve : Bool := false
  metadata : JValue := .obj []
deriving Repr

/-- `DAPERLResult` model (`started_at` / `completed_at` omitted). -/
structure DAPERLResult where
  workflow_id : String
  status : WorkflowStatus
  detection_result : Option DetectionResult := none
  analysis_result : Option AnalysisResult := none
  planning_result : Option PlanningResult := none
  execution_result : Option ExecutionResult := none
  reporting_result : Option ReportingResult := none
  learning_result : Option LearningResult := none
  summary : String
deriving Repr

/-! ## Detection agent (`src/daperl/agents/detection.py`) -/

/-- `DetectionAgent.validate_output`. -/
def validateDetectionOutput (output : JValue) : Bool :=
  match output with
  | .obj _ =>
    if !(jHas output "problems") || !(jHas output "confidence") then false
    else
      match jGet output "problems" with
      | some (.arr probs) =>
        probs.all (fun p =>
          match p with
          | .obj _ => jHas p "type" && jHas p "description"
          | _ => false)
      | _ => false
  | _ => false

/-- Parsing of one problem dict inside `DetectionAgent.execute` (lines 50-58);
field defaults as in the source, pydantic coercion failures raise. -/
def parseProblem (p : JValue) : Except String Problem :=
  match getStrD p "id" freshId with
  | .error e => .error e
  | .ok pid =>
  match getStrD p "type" "unknown" with
  | .error e => .error e
  | .ok ptype =>
  match getStrD p "description" "" with
  | .error e => .error e
  | .ok pdesc =>
  match getStrD p "severity" "medium" with
  | .error e => .error e
  | .ok psev =>
  match getObjD p "data" with
  | .error e => .error e
  | .ok pdata =>
    .ok { id := pid, type := ptype, description := pdesc, severity := psev, data := pdata }

/-- `DetectionAgent.execute`, as a function of the LLM response (the
`complete_with_json` result).  The LLM call itself failing is an activity
failure handled at the workflow level. -/
def detectionAgentExecute (response : JValue) : Except String DetectionResult :=
  if !(validateDetectionOutput response) then
    .error "Invalid detection output"
  else
    match (match jGet response "problems" with
           | some (.arr items) => items
           | _ => []).mapM parseProblem with
    | .error e => .error e
    | .ok problems =>
    match getRatD response "confidence" 0.7 with
    | .error e => .error e
    | .ok confidence =>
    match getStrD response "summary" ("Found " ++ toString problems.length ++ " problems") with
    | .error e => .error e
    | .ok summary =>
    if confidence < 0 || 1 < confidence then .error "ValidationError"
    else
      .ok { success := true
            message := "Detection complete: " ++ toString problems.length ++ " problems found"
            confidence := confidence
            confidence_level := confidenceLevelOf confidence
            problems_detected := decide (0 < problems.length)
            problems := problems
            summary := summary }

/-! ## Analysis agent (`src/daperl/agents/analysis.py`) -/

/-- `AnalysisAgent.validate_output`. -/
def validateAnalysisOutput (output : JValue) : Bool :=
  match output with
  | .obj _ =>
    if !(jHas output "root_causes") || !(jHas output "recommendations")
       || !(jHas output "confidence") then false
    else
      (match jGet output "root_causes" with
       | some (.arr _) => true
       | _ => false)
      &&
      (match jGet output "recommendations" with
       | some (.arr _) => true
       | _ => false)
  | _ => false

/-- The early-return `AnalysisResult` for "no problems to analyze"
(lines 34-40). -/
def analysisNoProblemsResult : AnalysisResult :=
  { success := true
    message := "No problems to analyze"
    confidence := 1.0
    confidence_level := .very_high
    analysis_summary := "No problems detected, no analysis needed" }

/-- `AnalysisAgent.execute`, as a function of the detection result found in
history (`_get_detection_result`) and of the LLM response. -/
def analysisAgentExecute (detection : Option DetectionResult) (response : JValue) :
    Except String AnalysisResult :=
  match detection with
  | none => .ok analysisNoProblemsResult
  | some det =>
    if det.problems.isEmpty then .ok analysisNoProblemsResult
    else if !(validateAnalysisOutput response) then
      .error "Invalid analysis output"
    else
      match getStrList response "root_causes" with
      | .error e => .error e
      | .ok root_causes =>
      match getStrList response "recommendations" with
      | .error e => .error e
      | .ok recommendations =>
      match getRatD response "confidence" 0.7 with
      | .error e => .error e
      | .ok confidence =>
      match getStrD response "summary" "Analysis complete" with
      | .error e => .error e
      | .ok summary =>
      if confidence < 0 || 1 < confidence then .error "ValidationError"
      else
        .ok { success := true
              message := "Analysis complete: " ++ toString root_causes.length
                           ++ " root causes identified"
              confidence := confidence
              confidence_level := confidenceLevelOf confidence
              analyzed_problems := det.problems
              root_causes := root_causes
              recommendations := recommendations
              analysis_summary := summary }

/-! ## Planning agent (`src/daperl/agents/planning.py`) -/

/-- `PlanningAgent.validate_output`. -/
def validatePlanningOutput (output : JValue) : Bool :=
  match output with
  | .obj _ =>
    if !(jHas output "plan") || !(jHas output "confidence") then false
    else
      match jGet output "plan" with
      | some planData@(.obj _) =>
        (match jGet planData "actions" with
         | some (.arr acts) =>
           acts.all (fun a =>
             match a with
             | .obj _ => jHas a "action_type" && jHas a "description" && jHas a "target"
             | _ => false)
         | _ => false)
      | _ => false
  | _ => false

/-- Parsing of one action dict inside `PlanningAgent._parse_plan`. -/
def parseAction (a : JValue) : Except String ActionModel :=
  match getStrD a "id" freshId with
  | .error e => .error e
  | .ok aid =>
  match getStrD a "action_type" "unknown" with
  | .error e => .error e
  | .ok atype =>
  match getStrD a "description" "" with
  | .error e => .error e
  | .ok adesc =>
  match getStrD a "target" "" with
  | .error e => .error e
  | .ok atarget =>
  match getObjD a "parameters" with
  | .error e => .error e
  | .ok aparams =>
  match getRatD a "confidence" 0.7 with
  | .error e => .error e
  | .ok aconf =>
  match getBoolD a "requires_approval" true with
  | .error e => .error e
  | .ok areq =>
  if aconf < 0 || 1 < aconf then .error "ValidationError"
  else
    .ok { id := aid, action_type := atype, description := adesc, target := atarget,
          parameters := aparams, confidence := aconf, requires_approval := areq }

/-- `PlanningAgent._parse_plan`. -/
def parsePlan (planData : JValue) : Except String ExecutionPlan :=
  match getArrD planData "actions" with
  | .error e => .error e
  | .ok actionData =>
  match actionData.mapM parseAction with
  | .error e => .error e
  | .ok actions =>
  match getStrD planData "id" freshId with
  | .error e => .error e
  | .ok pid =>
  match (match jGet planData "estimated_duration" with
         | none => Except.ok (none : Option String)
         | some .null => Except.ok none
         | some (.str s) => Except.ok (some s)
         | some _ => Except.error "ValidationError") with
  | .error e => .error e
  | .ok dur =>
  match getStrD planData "risk_level" "medium" with
  | .error e => .error e
  | .ok risk =>
  match getBoolD planData "requires_approval" true with
  | .error e => .error e
  | .ok req =>
    .ok { id := pid, actions := actions, estimated_duration := dur,
          risk_level := risk, requires_approval := req }

/-- The early-return `PlanningResult` for "no problems to plan for"
(lines 41-47); note its `plan` is `None`. -/
def planningNoProblemsResult : PlanningResult :=
  { success := true
    message := "No problems to plan for"
    confidence := 1.0
    confidence_level := .very_high
    planning_summary := "No problems found, no planning needed" }

/-- `PlanningAgent.execute`, as a function of the analysis result found in
history and of the LLM response.  On the main path the plan is always
constructed by `_parse_plan` (possibly with an empty action list) — it is
`None` only on the early-return path. -/
def planningAgentExecute (analysis : Option AnalysisResult) (response : JValue) :
    Except String PlanningResult :=
  match analysis with
  | none => .ok planningNoProblemsResult
  | some ana =>
    if ana.analyzed_problems.isEmpty then .ok planningNoProblemsResult
    else if !(validatePlanningOutput response) then
      .error "Invalid planning output"
    else
      match parsePlan ((jGet response "plan").getD (.obj [])) with
      | .error e => .error e
      | .ok plan =>
      match getArrD response "alternatives" with
      | .error e => .error e
      | .ok altData =>
      match altData.mapM parsePlan with
      | .error e => .error e
      | .ok alternatives =>
      match getRatD response "confidence" 0.7 with
      | .error e => .error e
      | .ok confidence =>
      match getStrD response "summary" "Planning complete" with
      | .error e => .error e
      | .ok summary =>
      if confidence < 0 || 1 < confidence then .error "ValidationError"
      else
        .ok { success := true
              message := "Plan created with " ++ toString plan.actions.length ++ " actions"
              confidence := confidence
              confidence_level := confidenceLevelOf confidence
              plan := some plan
              alternatives := alternatives
              planning_summary := summary }

/-! ## Execution agent (`src/daperl/agents/execution.py`) -/

/-- Outcome of the `try` body for one action (lines 64-79): either an
`ActionResult` was produced — from a registered handler's response dict or
from `_simulate_execution`, both already projected onto the constructed
fields — or some exception `e` was raised (handler exception, LLM failure,
or a pydantic `ValidationError` on a malformed handler response). -/
inductive ActionOutcome where
  | produced (success : Bool) (message : String) (data : JValue)
  | raises (e : String)
deriving Repr, BEq

/-- The per-action body of the execution loop (lines 63-97): a raised
exception is caught and converted into a failed `ActionResult` carrying the
error text. -/
def execOneAction (handler : ActionModel → ActionOutcome) (a : ActionModel) : ActionResult :=
  match handler a with
  | .produced success message data =>
    { action_id := a.id, success := success, message := message, data := data }
  | .raises e =>
    { action_id := a.id, success := false, message := "Execution failed: " ++ e,
      error := some e }

/-- The execution loop: returns `(actions_executed, success_count,
failure_count)` accumulated over the plan's actions. -/
def runActions (handler : ActionModel → ActionOutcome) :
    List ActionModel → List ActionResult × Nat × Nat
  | [] => ([], 0, 0)
  | a :: rest =>
    let r := execOneAction handler a
    let (rs, sc, fc) := runActions handler rest
    (r :: rs, (if r.success then sc + 1 else sc), (if r.success then fc else fc + 1))

/-- The early-return `ExecutionResult` for "no plan to execute" (lines 48-55). -/
def executionNoPlanResult : ExecutionResult :=
  { success := true
    message := "No plan to execute"
    confidence := 1.0
    confidence_level := .very_high
    plan_id := "none"
    execution_summary := "No plan found, no execution needed" }

/-- `ExecutionAgent.execute`, as a function of the planning result found in
history (`_get_planning_result`) and of the per-action environment.  Total:
every per-action exception is caught inside the loop. -/
def executionAgentExecute (planning : Option PlanningResult)
    (handler : ActionModel → ActionOutcome) : ExecutionResult :=
  match planning with
  | none => executionNoPlanResult
  | some pr =>
    match pr.plan with
    | none => executionNoPlanResult
    | some plan =>
      let (actions_executed, success_count, failure_count) := runActions handler plan.actions
      let overall_success := failure_count == 0
      let confidence : Rat :=
        if actions_executed.isEmpty then 0.0
        else (success_count : Rat) / (actions_executed.length : Rat)
      { success := overall_success
        message := "Execution complete: " ++ toString success_count ++ " succeeded, "
                     ++ toString failure_count ++ " failed"
        confidence := confidence
        confidence_level := confidenceLevelOf confidence
        plan_id := plan.id
        actions_executed := actions_executed
        success_count := success_count
        failure_count := failure_count
        execution_summary := "Executed " ++ toString actions_executed.length
                               ++ " actions with " ++ toString success_count ++ " successes" }

/-! ## Reporting agent (`src/daperl/agents/reporting.py`) -/

/-- `ReportingAgent.validate_output`. -/
def validateReportingOutput (output : JValue) : Bool :=
  match output with
  | .obj _ =>
    if !(jHas output "report") || !(jHas output "metrics") || !(jHas output "confidence") then
      false
    else
      match jGet output "metrics" with
      | some (.obj _) => true
      | _ => false
  | _ => false

/-- `ReportingAgent.execute`, as a function of the LLM response (prior stage
results are only used to build the prompt). -/
def reportingAgentExecute (response : JValue) : Except String ReportingResult :=
  if !(validateReportingOutput response) then
    .error "Invalid reporting output"
  else
    match getStrD response "report" "" with
    | .error e => .error e
    | .ok report =>
    match getObjD response "metrics" with
    | .error e => .error e
    | .ok metrics =>
    match getStrList response "recommendations" with
    | .error e => .error e
    | .ok recommendations =>
    match getRatD response "confidence" 0.8 with
    | .error e => .error e
    | .ok confidence =>
    if confidence < 0 || 1 < confidence then .error "ValidationError"
    else
      .ok { success := true
            message := "Report generated successfully"
            confidence := confidence
            confidence_level := confidenceLevelOf confidence
            report := report
            metrics := metrics
            recommendations := recommendations }

/-! ## Learning agent (`src/daperl/agents/learning.py`) -/

/-- `LearningAgent.validate_output`. -/
def validateLearningOutput (output : JValue) : Bool :=
  match output with
  | .obj _ =>
    if !(jHas output "insights") || !(jHas output "recommendations")
       || !(jHas output "confidence") then false
    else
      (match jGet output "insights" with
       | some (.arr _) => true
       | _ => false)
      &&
      (match jGet output "recommendations" with
       | some (.arr _) => true
       | _ => false)
  | _ => false

/-- Parsing of one insight dict (lines 90-98). -/
def parseInsight (workflow_id : String) (i : JValue) : Except String LearningInsight :=
  match getStrD i "id" freshId with
  | .error e => .error e
  | .ok iid =>
  match getStrD i "type" "general" with
  | .error e => .error e
  | .ok itype =>
  match getStrD i "description" "" with
  | .error e => .error e
  | .ok idesc =>
  match getRatD i "confidence" 0.5 with
  | .error e => .error e
  | .ok iconf =>
  if iconf < 0 || 1 < iconf then .error "ValidationError"
  else
    .ok { id := iid, insight_type := itype, description := idesc,
          confidence := iconf, supporting_executions := [workflow_id] }

/-- Pydantic `int` field from a JSON value: floats with a fractional part and
non-numbers raise. -/
def getIntD (v : JValue) (key : String) (dflt : Int) : Except String Int :=
  match jGet v key with
  | none => .ok dflt
  | some (.num q) => if q.den == 1 then .ok q.num else .error "ValidationError"
  | some _ => .error "ValidationError"

/-- `LearningAgent.execute`, as a function of the workflow id and the LLM
response.  Metric/insight storage calls are external side effects whose
failures surface as activity failures; they do not change the constructed
result. -/
def learningAgentExecute (workflow_id : String) (response : JValue) :
    Except String LearningResult :=
  if !(validateLearningOutput response) then
    .error "Invalid learning output"
  else
    match (match jGet response "insights" with
           | some (.arr items) => items
           | _ => []).mapM (parseInsight workflow_id) with
    | .error e => .error e
    | .ok insights =>
    match getIntD response "patterns_found" 0 with
    | .error e => .error e
    | .ok patterns_found =>
    match getStrList response "recommendations" with
    | .error e => .error e
    | .ok recommendations =>
    match getRatD response "confidence" 0.7 with
    | .error e => .error e
    | .ok confidence =>
    match getStrD response "summary" "Learning analysis complete" with
    | .error e => .error e
    | .ok summary =>
    if confidence < 0 || 1 < confidence then .error "ValidationError"
    else
      .ok { success := true
            message := "Learning complete: " ++ toString insights.length
                         ++ " insights generated"
            confidence := confidence
            confidence_level := confidenceLevelOf confidence
            insights := insights
            patterns_found := patterns_found
            recommendations := recommendations
            learning_summary := summary }

/-! ## Learning storage (`src/daperl/storage/json_storage.py`)

The metrics file holds a JSON list; `store_metric` appends, and
`get_recent_metrics` slices the last `limit` entries and reverses them.  The
list is modelled generically over the element type. -/

/-- `JSONLearningStorage.store_metric`: append to the stored list. -/
def storeMetric {α : Type} (m : α) (stored : List α) : List α :=
  stored ++ [m]

/-- Python slice `l[-limit:]`; note `-0 == 0`, so `limit = 0` yields the whole
list. -/
def pySliceLast {α : Type} (l : List α) (limit : Nat) : List α :=
  if limit = 0 then l else l.drop (l.length - limit)

/-- `JSONLearningStorage.get_recent_metrics` (lines 46-51):
`recent = data[-limit:] if len(data) > limit else data`, then
`reversed(recent)`. -/
def getRecentMetrics {α : Type} (stored : List α) (limit : Nat) : List α :=
  let recent := if stored.length > limit then pySliceLast stored limit else stored
  recent.reverse

/-! ## Workflow orchestrator (`src/daperl/workflows/daperl_workflow.py`) -/

/-- One entry of `context.history` (the discriminated `AgentContext.history`
union), tagged by phase. -/
inductive HistoryEntry where
  | detection (r : DetectionResult)
  | analysis (r : AnalysisResult)
  | planning (r : PlanningResult)
  | execution (r : ExecutionResult)
  | reporting (r : ReportingResult)
  | learning (r : LearningResult)
deriving Repr, BEq

/-- Outcome of one Temporal activity invocation under the retry policy
(maximum 3 attempts): `.ok` is a successful invocation; `.failed e` is an
invocation that failed on all attempts, whose exception (text `e`) propagates
into the workflow's `except Exception` handler. -/
inductive ActivityOutcome (α : Type) where
  | ok (r : α)
  | failed (e : String)
deriving Repr, BEq

/-- Run environment: the outcome of each activity invocation (if reached) and
the signal deliveries around the approval gate.

* `approvedEarly` — an `approve_plan` signal was delivered before the gate is
  reached, so `_plan_approved` is already true when `wait_condition` starts.
* `approveDuringWait` — an `approve_plan` signal arrives while the workflow is
  suspended in the gate, before the 24-hour deadline.
* `cancelDuringWait` — a `cancel_workflow` signal arrives while the workflow
  is suspended in the gate (it only assigns `_status = CANCELLED`; the wait
  predicate `lambda: self._plan_approved` does not observe it). -/
structure RunEnv where
  detection : ActivityOutcome DetectionResult
  analysis : ActivityOutcome AnalysisResult
  planning : ActivityOutcome PlanningResult
  approvedEarly : Bool := false
  approveDuringWait : Bool := false
  cancelDuringWait : Bool := false
  execution : ActivityOutcome ExecutionResult
  reporting : ActivityOutcome ReportingResult
  learning : ActivityOutcome LearningResult

/-- Workflow instance state: the `self._*` fields of `DAPERLWorkflow`,
`context.history`, and an instrumentation `trace` recording every value ever
assigned to `self._status`, in order. -/
structure RunState where
  status : WorkflowStatus
  detection_result : Option DetectionResult := none
  analysis_result : Option AnalysisResult := none
  planning_result : Option PlanningResult := none
  execution_result : Option ExecutionResult := none
  reporting_result : Option ReportingResult := none
  learning_result : Option LearningResult := none
  plan_approved : Bool := false
  history : List HistoryEntry := []
  trace : List WorkflowStatus := []
deriving Repr

/-- `DAPERLWorkflow.__init__`. -/
def initState : RunState :=
  { status := .initializing, trace := [.initializing] }

/-- An assignment `self._status = st` (also recorded in the trace). -/
def setStatus (s : RunState) (st : WorkflowStatus) : RunState :=
  { s with status := st, trace := s.trace ++ [st] }

/-- `DAPERLWorkflow.approve_plan` signal handler: sets `_plan_approved`
unconditionally, in any state, and cannot raise. -/
def approvePlan (s : RunState) : RunState :=
  { s with plan_approved := true }

/-- `DAPERLWorkflow.cancel_workflow` signal handler: assigns
`_status = CANCELLED` and nothing else. -/
def cancelWorkflowSignal (s : RunState) : RunState :=
  setStatus s .cancelled

/-- `DAPERLWorkflow._build_result`. -/
def buildResult (workflow_id : String) (s : RunState) (summary : String) : DAPERLResult :=
  { workflow_id := workflow_id
    status := s.status
    detection_result := s.detection_result
    analysis_result := s.analysis_result
    planning_result := s.planning_result
    execution_result := s.execution_result
    reporting_result := s.reporting_result
    learning_result := s.learning_result
    summary := summary }

/-- The `except Exception` handler (lines 213-216): `_status = FAILED` and a
result whose summary is `"Workflow failed: " + str(e)`. -/
def failWith (workflow_id : String) (s : RunState) (e : String) : RunState × DAPERLResult :=
  let s := setStatus s .failed
  (s, buildResult workflow_id s ("Workflow failed: " ++ e))

/-- The tail of `DAPERLWorkflow.run` from Phase 5 (Execution) on, entered once
the approval gate has been passed (lines 160-211). -/
def runFromExecution (workflow_id : String) (env : RunEnv) (s : RunState) :
    RunState × DAPERLResult :=
  let s := setStatus s .executing
  match env.execution with
  | .failed e => failWith workflow_id s e
  | .ok ex =>
    let s := { s with execution_result := some ex, history := s.history ++ [.execution ex] }
    let s := setStatus s .reporting
    match env.reporting with
    | .failed e => failWith workflow_id s e
    | .ok rep =>
      let s := { s with reporting_result := some rep, history := s.history ++ [.reporting rep] }
      let s := setStatus s .learning
      match env.learning with
      | .failed e => failWith workflow_id s e
      | .ok lr =>
        let s := { s with learning_result := some lr, history := s.history ++ [.learning lr] }
        let s := setStatus s .completed
        (s, buildResult workflow_id s "Workflow completed successfully")

/-- The approval gate block (lines 139-158), entered after Planning with the
just-computed planning result `pr`.  The condition on line 140 tests
`self._planning_result.plan` — a pydantic model instance, truthy whenever the
plan is present.  The wait follows the Temporal `wait_condition` semantics:
it returns as soon as `_plan_approved` is true and raises
`asyncio.TimeoutError` (caught by the outer `except Exception`, whose `str()`
is `""`) if the 24-hour deadline elapses first; a `cancel_workflow` signal
only assigns `_status` and never wakes the wait. -/
def approvalGate (workflow_id : String) (input : DAPERLInput) (env : RunEnv)
    (pr : PlanningResult) (s : RunState) : RunState × DAPERLResult :=
  if !input.auto_approve && pr.plan.isSome then
    let s := setStatus s .pending_approval
    let s := { s with plan_approved := env.approvedEarly }
    if s.plan_approved then
      runFromExecution workflow_id env s
    else
      let s := if env.cancelDuringWait then setStatus s .cancelled else s
      if env.approveDuringWait then
        runFromExecution workflow_id env { s with plan_approved := true }
      else
        failWith workflow_id s ""
  else
    runFromExecution workflow_id env { s with plan_approved := true }

/-- `DAPERLWorkflow.run`. -/
def runWorkflow (workflow_id : String) (input : DAPERLInput) (env : RunEnv) :
    RunState × DAPERLResult :=
  let s := initState
  let s := setStatus s .detecting
  match env.detection with
  | .failed e => failWith workflow_id s e
  | .ok det =>
    let s := { s with detection_result := some det, history := s.history ++ [.detection det] }
    if !det.problems_detected then
      let s := setStatus s .completed
      (s, buildResult workflow_id s "No problems detected")
    else
      let s := setStatus s .analyzing
      match env.analysis with
      | .failed e => failWith workflow_id s e
      | .ok ana =>
        let s := { s with analysis_result := some ana, history := s.history ++ [.analysis ana] }
        let s := setStatus s .planning
        match env.planning with
        | .failed e => failWith workflow_id s e
        | .ok pr =>
          let s := { s with planning_result := some pr, history := s.history ++ [.planning pr] }
          approvalGate workflow_id input env pr s

/-! ## Concrete run fixtures used by witnesses and counterexamples -/

/-- A sample detected problem. -/
def sampleProblem : Problem :=
  { id := "prob-1", type := "latency", description := "p95 latency regression", severity := "high" }

/-- A sample detection result reporting one problem. -/
def sampleDet : DetectionResult :=
  { success := true, message := "Detection complete: 1 problems found", confidence := 0.8,
    confidence_level := .high, problems_detected := true, problems := [sampleProblem],
    summary := "found one problem" }

/-- A sample analysis result. -/
def sampleAna : AnalysisResult :=
  { success := true, message := "Analysis complete: 1 root causes identified", confidence := 0.8,
    confidence_level := .high, analyzed_problems := [sampleProblem],
    root_causes := ["cache misconfiguration"], recommendations := ["fix cache"],
    analysis_summary := "one cause" }

/-- A sample planned action. -/
def sampleAction : ActionModel :=
  { id := "act-1", action_type := "restart", description := "restart the service",
    target := "svc", confidence := 0.8 }

/-- A sample plan with one action. -/
def samplePlan : ExecutionPlan := { id := "plan-1", actions := [sampleAction] }

/-- A sample planning result carrying `samplePlan`. -/
def samplePr : PlanningResult :=
  { success := true, message := "Plan created with 1 actions", confidence := 0.8,
    confidence_level := .high, plan := some samplePlan, planning_summary := "one action" }

/-- A sample execution result. -/
def sampleEx : ExecutionResult :=
  { success := true, message := "Execution complete: 1 succeeded, 0 failed", confidence := 1.0,
    confidence_level := .very_high, plan_id := "plan-1",
    actions_executed := [{ action_id := "act-1", success := true, message := "done" }],
    success_count := 1, failure_count := 0, execution_summary := "Executed 1 actions" }

/-- A sample reporting result. -/
def sampleRep : ReportingResult :=
  { success := true, message := "Report generated successfully", confidence := 0.8,
    confidence_level := .high, report := "all good" }

/-- A sample learning result. -/
def sampleLr : LearningResult :=
  { success := true, message := "Learning complete: 0 insights generated", confidence := 0.7,
    confidence_level := .high, learning_summary := "nothing new" }

/-- A sample workflow input without auto-approval. -/
def sampleInput : DAPERLInput := { domain := "demo" }

/-- A run environment in which every activity invocation succeeds and no
signal is ever delivered. -/
def baseEnv : RunEnv :=
  { detection := .ok sampleDet, analysis := .ok sampleAna, planning := .ok samplePr,
    execution := .ok sampleEx, reporting := .ok sampleRep, learning := .ok sampleLr }

/-! ## C2 — approval timeout -/

/-- C2 (code bug): in a run that reaches the approval gate and receives no
signal before the 24-hour deadline, `wait_condition` raises
`asyncio.TimeoutError`, which the workflow's blanket `except Exception`
handler turns into status `FAILED` with summary `"Workflow failed: "` — not
the `CANCELLED`/`"Plan approval timeout"` outcome of the unreachable
lines 150-153 that the claim (and the spec) describe. -/
theorem C2_approval_timeout_gives_failed :
    (runWorkflow "wf-1" sampleInput baseEnv).2.status = WorkflowStatus.failed ∧
    (runWorkflow "wf-1" sampleInput baseEnv).2.summary = "Workflow failed: " ∧
    (runWorkflow "wf-1" sampleInput baseEnv).2.status ≠ WorkflowStatus.cancelled ∧
    (runWorkflow "wf-1" sampleInput baseEnv).2.summary ≠ "Plan approval timeout" := by
  refine ⟨rfl, rfl, by decide, by decide⟩

/-! ## C3 — cancel while pending approval -/

/-- C3 (code bug): `cancel_workflow` only assigns `_status = CANCELLED`;
the gate's wait predicate checks only `_plan_approved`, so the cancel signal
never resumes the run.  If an approve signal also arrives, the workflow
proceeds through Execution, Reporting and Learning, appends their
StageResults, and terminates `COMPLETED`; with cancel alone the run stays
suspended until the 24-hour deadline and then terminates `FAILED`.  In
neither case is `Cancelled` the final status. -/
theorem C3_cancel_not_observed :
    ((runWorkflow "wf-1" sampleInput
        { baseEnv with cancelDuringWait := true, approveDuringWait := true }).2.status
      = WorkflowStatus.completed) ∧
    ((runWorkflow "wf-1" sampleInput
        { baseEnv with cancelDuringWait := true, approveDuringWait := true }).1.history
      = [.detection sampleDet, .analysis sampleAna, .planning samplePr,
         .execution sampleEx, .reporting sampleRep, .learning sampleLr]) ∧
    (WorkflowStatus.cancelled ∈ (runWorkflow "wf-1" sampleInput
        { baseEnv with cancelDuringWait := true, approveDuringWait := true }).1.trace) ∧
    ((runWorkflow "wf-1" sampleInput
        { baseEnv with cancelDuringWait := true }).2.status = WorkflowStatus.failed) := by
  refine ⟨rfl, rfl, by decide, rfl⟩

/-! ## C1 — detection early exit -/

/-- Every result produced by `DetectionAgent.execute` couples the
`problems_detected` flag to the problem list: it is `len(problems) > 0`. -/
lemma detectionAgentExecute_flag (resp : JValue) (det : DetectionResult)
    (h : detectionAgentExecute resp = .ok det) :
    det.problems_detected = decide (0 < det.problems.length) := by
  unfold detectionAgentExecute at h
  repeat' split at h
  all_goals (try simp_all)
  all_goals (subst h; rfl)

/-- C1: when the Detection stage reports zero detected problems, the run
terminates immediately with status `Completed` and the `"No problems
detected"` summary; no StageResult for Analysis through Learning is ever
produced — the history holds the detection result alone and every later
result slot is `None`. -/
theorem C1_no_problems_early_exit (wid : String) (input : DAPERLInput) (env : RunEnv)
    (resp : JValue) (det : DetectionResult)
    (hagent : detectionAgentExecute resp = .ok det)
    (henv : env.detection = .ok det)
    (hzero : det.problems = []) :
    (runWorkflow wid input env).2.status = WorkflowStatus.completed ∧
    (runWorkflow wid input env).2.summary = "No problems detected" ∧
    (runWorkflow wid input env).2.detection_result = some det ∧
    (runWorkflow wid input env).2.analysis_result = none ∧
    (runWorkflow wid input env).2.planning_result = none ∧
    (runWorkflow wid input env).2.execution_result = none ∧
    (runWorkflow wid input env).2.reporting_result = none ∧
    (runWorkflow wid input env).2.learning_result = none ∧
    (runWorkflow wid input env).1.history = [HistoryEntry.detection det] := by
  have hflag : det.problems_detected = false := by
    rw [detectionAgentExecute_flag resp det hagent, hzero]
    decide
  unfold runWorkflow
  rw [henv]
  simp [hflag, initState, setStatus, buildResult]

/-- A detection response reporting zero problems, used as C1's witness. -/
def c1Resp : JValue :=
  .obj [("problems", .arr []), ("confidence", .num 0.95), ("summary", .str "all clear")]

/-- The detection result that `DetectionAgent.execute` produces on `c1Resp`. -/
def c1Det : DetectionResult :=
  { success := true, message := "Detection complete: 0 problems found", confidence := 0.95,
    confidence_level := .very_high, problems_detected := false, problems := [],
    summary := "all clear" }

/-- A run environment whose detection activity returns `c1Det`. -/
def c1Env : RunEnv := { baseEnv with detection := .ok c1Det }

/-- Rational comparison facts for the confidence value 0.95. -/
lemma rat95_facts : ¬((0.95 : Rat) < 0) ∧ ¬(1 < (0.95 : Rat)) ∧ (0.9 : Rat) ≤ 0.95 := by
  norm_num

/-- `DetectionAgent.execute` evaluates `c1Resp` to `c1Det`. -/
lemma c1_det_eval : detectionAgentExecute c1Resp = Except.ok c1Det := by
  simp [detectionAgentExecute, validateDetectionOutput, jHas, getRatD, getStrD, asStr,
    confidenceLevelOf, c1Resp, c1Det, List.mapM, List.mapM.loop, pure, Except.pure,
    jGet_obj_cons, jGet_obj_nil, rat95_facts.1, rat95_facts.2.1, rat95_facts.2.2]
  rfl

/-- Witness for C1 at a concrete zero-problem run. -/
theorem C1_no_problems_early_exit_witness :
    (runWorkflow "wf-1" sampleInput c1Env).2.status = WorkflowStatus.completed ∧
    (runWorkflow "wf-1" sampleInput c1Env).2.summary = "No problems detected" ∧
    (runWorkflow "wf-1" sampleInput c1Env).2.detection_result = some c1Det ∧
    (runWorkflow "wf-1" sampleInput c1Env).2.analysis_result = none ∧
    (runWorkflow "wf-1" sampleInput c1Env).2.planning_result = none ∧
    (runWorkflow "wf-1" sampleInput c1Env).2.execution_result = none ∧
    (runWorkflow "wf-1" sampleInput c1Env).2.reporting_result = none ∧
    (runWorkflow "wf-1" sampleInput c1Env).2.learning_result = none ∧
    (runWorkflow "wf-1" sampleInput c1Env).1.history = [HistoryEntry.detection c1Det] :=
  C1_no_problems_early_exit "wf-1" sampleInput c1Env c1Resp c1Det c1_det_eval rfl rfl

/-! ## C4 — approval gate condition -/

/-- A planning LLM response whose plan has an empty action list; it passes
`PlanningAgent.validate_output` (which only requires `actions` to be a list). -/
def emptyPlanResp : JValue :=
  .obj [("plan", .obj [("id", .str "plan-x"), ("actions", .arr [])]),
        ("confidence", .num 0.95)]

/-- The planning result produced on `emptyPlanResp`: a present plan with zero
actions. -/
def emptyPlanPr : PlanningResult :=
  { success := true, message := "Plan created with 0 actions", confidence := 0.95,
    confidence_level := .very_high, plan := some { id := "plan-x", actions := [] },
    planning_summary := "Planning complete" }

/-- `PlanningAgent.execute` evaluates `emptyPlanResp` (after `sampleAna`) to
`emptyPlanPr`. -/
lemma emptyPlanPr_eval : planningAgentExecute (some sampleAna) emptyPlanResp = .ok emptyPlanPr := by
  simp [planningAgentExecute, validatePlanningOutput, jHas, getRatD, getStrD, asStr,
    getBoolD, getArrD, parsePlan, confidenceLevelOf, emptyPlanResp, emptyPlanPr, sampleAna,
    List.mapM, List.mapM.loop, pure, Except.pure, jGet_obj_cons, jGet_obj_nil,
    rat95_facts.1, rat95_facts.2.1, rat95_facts.2.2]
  rfl

/-- C4 counterexample: the workflow's gate condition (line 140) tests plan
*presence* (`self._planning_result.plan` — a pydantic model is always
truthy), not whether the plan has at least one action.  A run without
auto-approval whose Planning stage produced a plan with an empty action list
does enter `PENDING_APPROVAL`, although the claim says the gate is skipped. -/
theorem C4_counterexample_empty_plan_enters_gate :
    planningAgentExecute (some sampleAna) emptyPlanResp = Except.ok emptyPlanPr ∧
    emptyPlanPr.plan = some { id := "plan-x", actions := [] } ∧
    sampleInput.auto_approve = false ∧
    WorkflowStatus.pending_approval ∈
      (runWorkflow "wf-1" sampleInput { baseEnv with planning := .ok emptyPlanPr }).1.trace :=
  ⟨emptyPlanPr_eval, rfl, rfl, by decide⟩

/-- The trace grows by `[FAILED]` in the exception handler. -/
lemma failWith_trace (wid : String) (s : RunState) (e : String) :
    (failWith wid s e).1.trace = s.trace ++ [WorkflowStatus.failed] := by
  simp [failWith, setStatus]

/-- `runFromExecution` never records `PENDING_APPROVAL`: the statuses it
appends are among Executing/Reporting/Learning/Completed/Failed. -/
lemma runFromExecution_no_pending (wid : String) (env : RunEnv) (s : RunState)
    (h : WorkflowStatus.pending_approval ∉ s.trace) :
    WorkflowStatus.pending_approval ∉ (runFromExecution wid env s).1.trace := by
  unfold runFromExecution
  cases hex : env.execution with
  | failed e => simp_all [failWith, setStatus]
  | ok ex =>
    cases hrep : env.reporting with
    | failed e => simp_all [failWith, setStatus]
    | ok rep =>
      cases hlr : env.learning with
      | failed e => simp_all [failWith, setStatus]
      | ok lr => simp_all [setStatus]

/-- A status once recorded in the trace stays recorded through
`runFromExecution`. -/
lemma runFromExecution_trace_mono (wid : String) (env : RunEnv) (s : RunState)
    (st : WorkflowStatus) (h : st ∈ s.trace) :
    st ∈ (runFromExecution wid env s).1.trace := by
  unfold runFromExecution
  cases hex : env.execution with
  | failed e => simp_all [failWith, setStatus]
  | ok ex =>
    cases hrep : env.reporting with
    | failed e => simp_all [failWith, setStatus]
    | ok rep =>
      cases hlr : env.learning with
      | failed e => simp_all [failWith, setStatus]
      | ok lr => simp_all [setStatus]

/-- The workflow state as Planning's result is appended, just before the
approval gate. -/
def postPlanningState (det : DetectionResult) (ana : AnalysisResult) (pr : PlanningResult) :
    RunState :=
  { status := .planning, detection_result := some det, analysis_result := some ana,
    planning_result := some pr,
    history := [.detection det, .analysis ana, .planning pr],
    trace := [.initializing, .detecting, .analyzing, .planning] }

/-- A run that reaches Planning successfully continues as the approval gate
started from `postPlanningState`. -/
lemma runWorkflow_reaches_gate (wid : String) (input : DAPERLInput) (env : RunEnv)
    (det : DetectionResult) (ana : AnalysisResult) (pr : PlanningResult)
    (hd : env.detection = .ok det) (hpd : det.problems_detected = true)
    (ha : env.analysis = .ok ana) (hp : env.planning = .ok pr) :
    runWorkflow wid input env = approvalGate wid input env pr (postPlanningState det ana pr) := by
  unfold runWorkflow
  rw [hd, ha, hp]
  simp [hpd, initState, setStatus, postPlanningState]

/-- The gate records `PENDING_APPROVAL` exactly when its entry condition
holds. -/
lemma approvalGate_pending_iff (wid : String) (input : DAPERLInput) (env : RunEnv)
    (pr : PlanningResult) (s : RunState)
    (hnot : WorkflowStatus.pending_approval ∉ s.trace) :
    WorkflowStatus.pending_approval ∈ (approvalGate wid input env pr s).1.trace ↔
      (input.auto_approve = false ∧ pr.plan.isSome = true) := by
  unfold approvalGate
  cases hauto : input.auto_approve with
  | true =>
    refine iff_of_false ?_ (by simp [hauto])
    simp only [hauto, Bool.not_true, Bool.false_and, Bool.false_eq_true, if_neg]
    exact runFromExecution_no_pending _ _ _ (by simpa using hnot)
  | false =>
    cases hplan : pr.plan.isSome with
    | false =>
      refine iff_of_false ?_ (by simp [hplan])
      simp only [hplan, Bool.and_false, Bool.false_eq_true, if_neg]
      exact runFromExecution_no_pending _ _ _ (by simpa using hnot)
    | true =>
      -- gate entered: PENDING_APPROVAL is recorded on every subsequent path
      refine iff_of_true ?_ (by simp [hauto, hplan])
      simp only [hauto, hplan, Bool.not_false, Bool.true_and, if_true]
      cases hearly : env.approvedEarly with
      | true =>
        simp only [hearly, if_true]
        exact runFromExecution_trace_mono _ _ _ _ (by simp [setStatus])
      | false =>
        simp only [hearly, Bool.false_eq_true, if_false, if_neg]
        cases hwait : env.approveDuringWait with
        | true =>
          simp only [hwait, if_true]
          apply runFromExecution_trace_mono
          by_cases hcancel : env.cancelDuringWait <;> simp [hcancel, setStatus]
        | false =>
          simp only [hwait, Bool.false_eq_true, if_false, if_neg]
          simp only [failWith, setStatus]
          by_cases hcancel : env.cancelDuringWait <;> simp [hcancel, setStatus]

/-- C4 amended: in a run that reaches Planning successfully (Detection found
problems, Analysis and Planning succeeded), the status becomes
`PendingApproval` if and only if the caller did not request auto-approval and
Planning produced a *present* plan — regardless of whether its action list is
empty.  (`auto_approve = true` or `plan = None` skips the gate.) -/
theorem C4_gate_iff_plan_present (wid : String) (input : DAPERLInput) (env : RunEnv)
    (det : DetectionResult) (ana : AnalysisResult) (pr : PlanningResult)
    (hd : env.detection = .ok det) (hpd : det.problems_detected = true)
    (ha : env.analysis = .ok ana) (hp : env.planning = .ok pr) :
    WorkflowStatus.pending_approval ∈ (runWorkflow wid input env).1.trace ↔
      (input.auto_approve = false ∧ pr.plan.isSome = true) := by
  rw [runWorkflow_reaches_gate wid input env det ana pr hd hpd ha hp]
  exact approvalGate_pending_iff wid input env pr _ (by simp [postPlanningState])

/-- Witness for the amended C4 at a concrete gate-entering run. -/
theorem C4_gate_iff_plan_present_witness :
    WorkflowStatus.pending_approval ∈ (runWorkflow "wf-1" sampleInput baseEnv).1.trace :=
  (C4_gate_iff_plan_present "wf-1" sampleInput baseEnv sampleDet sampleAna samplePr
    rfl rfl rfl rfl).mpr ⟨rfl, rfl⟩

/-! ## C5 — retry exhaustion preserves partial results -/

/-- Execution-stage exhaustion: the run fails with the exception text in the
summary and keeps the state's accumulated results. -/
lemma runFromExecution_exec_failed (wid : String) (env : RunEnv) (s : RunState) (e : String)
    (h : env.execution = .failed e) :
    (runFromExecution wid env s).2.status = .failed ∧
    (runFromExecution wid env s).2.summary = "Workflow failed: " ++ e ∧
    (runFromExecution wid env s).2.detection_result = s.detection_result ∧
    (runFromExecution wid env s).2.analysis_result = s.analysis_result ∧
    (runFromExecution wid env s).2.planning_result = s.planning_result := by
  unfold runFromExecution
  simp [h, failWith, setStatus, buildResult]

/-- Reporting-stage exhaustion. -/
lemma runFromExecution_reporting_failed (wid : String) (env : RunEnv) (s : RunState)
    (ex : ExecutionResult) (e : String)
    (hex : env.execution = .ok ex) (h : env.reporting = .failed e) :
    (runFromExecution wid env s).2.status = .failed ∧
    (runFromExecution wid env s).2.summary = "Workflow failed: " ++ e ∧
    (runFromExecution wid env s).2.detection_result = s.detection_result ∧
    (runFromExecution wid env s).2.analysis_result = s.analysis_result ∧
    (runFromExecution wid env s).2.planning_result = s.planning_result ∧
    (runFromExecution wid env s).2.execution_result = some ex := by
  unfold runFromExecution
  simp [hex, h, failWith, setStatus, buildResult]

/-- Learning-stage exhaustion. -/
lemma runFromExecution_learning_failed (wid : String) (env : RunEnv) (s : RunState)
    (ex : ExecutionResult) (rep : ReportingResult) (e : String)
    (hex : env.execution = .ok ex) (hrep : env.reporting = .ok rep)
    (h : env.learning = .failed e) :
    (runFromExecution wid env s).2.status = .failed ∧
    (runFromExecution wid env s).2.summary = "Workflow failed: " ++ e ∧
    (runFromExecution wid env s).2.detection_result = s.detection_result ∧
    (runFromExecution wid env s).2.analysis_result = s.analysis_result ∧
    (runFromExecution wid env s).2.planning_result = s.planning_result ∧
    (runFromExecution wid env s).2.execution_result = some ex ∧
    (runFromExecution wid env s).2.reporting_result = some rep := by
  unfold runFromExecution
  simp [hex, hrep, h, failWith, setStatus, buildResult]

/-- When the gate is skipped or approved, the gate continues into
`runFromExecution` from a state with the same accumulated results. -/
lemma approvalGate_passed (wid : String) (input : DAPERLInput) (env : RunEnv)
    (pr : PlanningResult) (s : RunState)
    (h : input.auto_approve = true ∨ pr.plan = none ∨ env.approvedEarly = true ∨
         env.approveDuringWait = true) :
    ∃ s', approvalGate wid input env pr s = runFromExecution wid env s' ∧
      s'.detection_result = s.detection_result ∧
      s'.analysis_result = s.analysis_result ∧
      s'.planning_result = s.planning_result := by
  unfold approvalGate
  by_cases hcond : (!input.auto_approve && pr.plan.isSome) = true
  · have hplan : pr.plan.isSome = true := (Bool.and_eq_true _ _ |>.mp hcond).2
    have hauto : input.auto_approve = false := by
      have := (Bool.and_eq_true _ _ |>.mp hcond).1
      simpa using this
    rcases h with h | h | h | h
    · rw [hauto] at h; exact absurd h (by simp)
    · rw [h] at hplan; exact absurd hplan (by simp)
    · simp [hcond, h]
      exact ⟨_, rfl, by simp [setStatus], by simp [setStatus], by simp [setStatus]⟩
    · cases hearly : env.approvedEarly with
      | true =>
        simp [hcond, hearly]
        exact ⟨_, rfl, by simp [setStatus], by simp [setStatus], by simp [setStatus]⟩
      | false =>
        cases hcancel : env.cancelDuringWait with
        | true =>
          simp [hcond, hearly, hcancel, h]
          exact ⟨_, rfl, by simp [setStatus], by simp [setStatus], by simp [setStatus]⟩
        | false =>
          simp [hcond, hearly, hcancel, h]
          exact ⟨_, rfl, by simp [setStatus], by simp [setStatus], by simp [setStatus]⟩
  · simp [hcond]
    exact ⟨_, rfl, rfl, rfl, rfl⟩

/-- C5: a stage invocation that exhausts its retry budget terminates the run
with status `Failed`; the result's summary is `"Workflow failed: " + str(e)`
(referencing the failure), and every StageResult collected before the failing
stage is still present in the `WorkflowResult`.  One conjunct per failing
stage; for stages after the gate the run must have passed the gate (by
auto-approval, absent plan, or an approve signal). -/
theorem C5_retry_exhaustion_keeps_prior_results (wid : String) (input : DAPERLInput)
    (env : RunEnv) (e : String) :
    (env.detection = .failed e →
       (runWorkflow wid input env).2.status = .failed ∧
       (runWorkflow wid input env).2.summary = "Workflow failed: " ++ e) ∧
    (∀ det, env.detection = .ok det → det.problems_detected = true →
       env.analysis = .failed e →
       (runWorkflow wid input env).2.status = .failed ∧
       (runWorkflow wid input env).2.summary = "Workflow failed: " ++ e ∧
       (runWorkflow wid input env).2.detection_result = some det) ∧
    (∀ det ana, env.detection = .ok det → det.problems_detected = true →
       env.analysis = .ok ana → env.planning = .failed e →
       (runWorkflow wid input env).2.status = .failed ∧
       (runWorkflow wid input env).2.summary = "Workflow failed: " ++ e ∧
       (runWorkflow wid input env).2.detection_result = some det ∧
       (runWorkflow wid input env).2.analysis_result = some ana) ∧
    (∀ det ana pr, env.detection = .ok det → det.problems_detected = true →
       env.analysis = .ok ana → env.planning = .ok pr →
       (input.auto_approve = true ∨ pr.plan = none ∨ env.approvedEarly = true ∨
         env.approveDuringWait = true) →
       env.execution = .failed e →
       (runWorkflow wid input env).2.status = .failed ∧
       (runWorkflow wid input env).2.summary = "Workflow failed: " ++ e ∧
       (runWorkflow wid input env).2.detection_result = some det ∧
       (runWorkflow wid input env).2.analysis_result = some ana ∧
       (runWorkflow wid input env).2.planning_result = some pr) ∧
    (∀ det ana pr ex, env.detection = .ok det → det.problems_detected = true →
       env.analysis = .ok ana → env.planning = .ok pr →
       (input.auto_approve = true ∨ pr.plan = none ∨ env.approvedEarly = true ∨
         env.approveDuringWait = true) →
       env.execution = .ok ex → env.reporting = .failed e →
       (runWorkflow wid input env).2.status = .failed ∧
       (runWorkflow wid input env).2.summary = "Workflow failed: " ++ e ∧
       (runWorkflow wid input env).2.detection_result = some det ∧
       (runWorkflow wid input env).2.analysis_result = some ana ∧
       (runWorkflow wid input env).2.planning_result = some pr ∧
       (runWorkflow wid input env).2.execution_result = some ex) ∧
    (∀ det ana pr ex rep, env.detection = .ok det → det.problems_detected = true →
       env.analysis = .ok ana → env.planning = .ok pr →
       (input.auto_approve = true ∨ pr.plan = none ∨ env.approvedEarly = true ∨
         env.approveDuringWait = true) →
       env.execution = .ok ex → env.reporting = .ok rep → env.learning = .failed e →
       (runWorkflow wid input env).2.status = .failed ∧
       (runWorkflow wid input env).2.summary = "Workflow failed: " ++ e ∧
       (runWorkflow wid input env).2.detection_result = some det ∧
       (runWorkflow wid input env).2.analysis_result = some ana ∧
       (runWorkflow wid input env).2.planning_result = some pr ∧
       (runWorkflow wid input env).2.execution_result = some ex ∧
       (runWorkflow wid input env).2.reporting_result = some rep) := by
  refine ⟨?_, ?_, ?_, ?_, ?_, ?_⟩
  · intro h
    unfold runWorkflow
    simp [h, failWith, setStatus, buildResult, initState]
  · intro det hd hpd ha
    unfold runWorkflow
    rw [hd, ha]
    simp [hpd, failWith, setStatus, buildResult, initState]
  · intro det ana hd hpd ha hp
    unfold runWorkflow
    rw [hd, ha, hp]
    simp [hpd, failWith, setStatus, buildResult, initState]
  · intro det ana pr hd hpd ha hp hgate hfail
    rw [runWorkflow_reaches_gate wid input env det ana pr hd hpd ha hp]
    obtain ⟨s', heq, h1, h2, h3⟩ := approvalGate_passed wid input env pr _ hgate
    rw [heq]
    have := runFromExecution_exec_failed wid env s' e hfail
    simp only [postPlanningState] at h1 h2 h3
    exact ⟨this.1, this.2.1, by rw [this.2.2.1, h1], by rw [this.2.2.2.1, h2],
      by rw [this.2.2.2.2, h3]⟩
  · intro det ana pr ex hd hpd ha hp hgate hex hfail
    rw [runWorkflow_reaches_gate wid input env det ana pr hd hpd ha hp]
    obtain ⟨s', heq, h1, h2, h3⟩ := approvalGate_passed wid input env pr _ hgate
    rw [heq]
    have := runFromExecution_reporting_failed wid env s' ex e hex hfail
    simp only [postPlanningState] at h1 h2 h3
    exact ⟨this.1, this.2.1, by rw [this.2.2.1, h1], by rw [this.2.2.2.1, h2],
      by rw [this.2.2.2.2.1, h3], this.2.2.2.2.2⟩
  · intro det ana pr ex rep hd hpd ha hp hgate hex hrep hfail
    rw [runWorkflow_reaches_gate wid input env det ana pr hd hpd ha hp]
    obtain ⟨s', heq, h1, h2, h3⟩ := approvalGate_passed wid input env pr _ hgate
    rw [heq]
    have := runFromExecution_learning_failed wid env s' ex rep e hex hrep hfail
    simp only [postPlanningState] at h1 h2 h3
    exact ⟨this.1, this.2.1, by rw [this.2.2.1, h1], by rw [this.2.2.2.1, h2],
      by rw [this.2.2.2.2.1, h3], this.2.2.2.2.2.1, this.2.2.2.2.2.2⟩

/-- Witness for C5: a concrete run whose Planning activity exhausts its
retries after Detection and Analysis succeeded. -/
theorem C5_retry_exhaustion_keeps_prior_results_witness :
    (runWorkflow "wf-1" sampleInput
        { baseEnv with planning := .failed "LLM unavailable" }).2.status = .failed ∧
    (runWorkflow "wf-1" sampleInput
        { baseEnv with planning := .failed "LLM unavailable" }).2.summary
      = "Workflow failed: LLM unavailable" ∧
    (runWorkflow "wf-1" sampleInput
        { baseEnv with planning := .failed "LLM unavailable" }).2.detection_result
      = some sampleDet ∧
    (runWorkflow "wf-1" sampleInput
        { baseEnv with planning := .failed "LLM unavailable" }).2.analysis_result
      = some sampleAna :=
  (C5_retry_exhaustion_keeps_prior_results "wf-1" sampleInput
    { baseEnv with planning := .failed "LLM unavailable" } "LLM unavailable").2.2.1
    sampleDet sampleAna rfl rfl rfl rfl

/-! ## C6 — execution isolation -/

/-- The execution loop produces exactly the per-action translation of the
plan's action list. -/
lemma runActions_results (handler : ActionModel → ActionOutcome) (actions : List ActionModel) :
    (runActions handler actions).1 = actions.map (execOneAction handler) := by
  induction actions with
  | nil => rfl
  | cons a rest ih =>
    simp only [runActions, List.map_cons]
    rcases hr : runActions handler rest with ⟨rs, sc, fc⟩
    simp [hr] at ih
    simp [ih]

/-- Success and failure counts of the execution loop sum to the number of
actions. -/
lemma runActions_counts (handler : ActionModel → ActionOutcome) (actions : List ActionModel) :
    (runActions handler actions).2.1 + (runActions handler actions).2.2 = actions.length := by
  induction actions with
  | nil => rfl
  | cons a rest ih =>
    simp only [runActions]
    rcases hr : runActions handler rest with ⟨rs, sc, fc⟩
    simp only [hr] at ih
    by_cases hs : (execOneAction handler a).success <;> simp [hs] <;> omega

/-- C6: for every plan, the Execution stage yields exactly one `ActionResult`
per action (in order); `success_count + failure_count` equals the number of
actions; a raised per-action exception does not abort the loop but becomes a
failed `ActionResult` carrying the error text at that action's position; and
the stage's overall `success` is true iff `failure_count = 0`. -/
theorem C6_execution_isolation (pr : PlanningResult) (plan : ExecutionPlan)
    (handler : ActionModel → ActionOutcome) (hplan : pr.plan = some plan) :
    (executionAgentExecute (some pr) handler).actions_executed.length
        = plan.actions.length ∧
    (executionAgentExecute (some pr) handler).success_count
        + (executionAgentExecute (some pr) handler).failure_count
        = plan.actions.length ∧
    ((executionAgentExecute (some pr) handler).success = true ↔
      (executionAgentExecute (some pr) handler).failure_count = 0) ∧
    (∀ (i : Nat) (a : ActionModel) (e : String),
      plan.actions[i]? = some a → handler a = .raises e →
      (executionAgentExecute (some pr) handler).actions_executed[i]? =
        some ({ action_id := a.id, success := false, message := "Execution failed: " ++ e,
                data := JValue.obj [], error := some e } : ActionResult)) := by
  rcases hr : runActions handler plan.actions with ⟨rs, sc, fc⟩
  have hres := runActions_results handler plan.actions
  have hcount := runActions_counts handler plan.actions
  rw [hr] at hres hcount
  refine ⟨?_, ?_, ?_, ?_⟩
  · simp [executionAgentExecute, hplan, hr, hres]
  · simp only [executionAgentExecute, hplan, hr]
    simpa using hcount
  · simp [executionAgentExecute, hplan, hr]
  · intro i a e hget hraise
    simp [executionAgentExecute, hplan, hr, hres, List.getElem?_map, hget,
      execOneAction, hraise]

/-- The third action of the five-action witness plan; its handler raises. -/
def c6Action3 : ActionModel :=
  { id := "a3", action_type := "bad", description := "", target := "", confidence := 0.5 }

/-- A plan of five actions whose third action's handler raises. -/
def c6Plan : ExecutionPlan :=
  { id := "plan-5",
    actions := [
      { id := "a1", action_type := "good", description := "", target := "", confidence := 0.5 },
      { id := "a2", action_type := "good", description := "", target := "", confidence := 0.5 },
      c6Action3,
      { id := "a4", action_type := "good", description := "", target := "", confidence := 0.5 },
      { id := "a5", action_type := "good", description := "", target := "", confidence := 0.5 }] }

/-- A planning result carrying `c6Plan`. -/
def c6Pr : PlanningResult :=
  { success := true, message := "Plan created with 5 actions", confidence := 0.8,
    confidence_level := .high, plan := some c6Plan }

/-- A handler that raises on the `bad` action type and succeeds otherwise. -/
def c6Handler (a : ActionModel) : ActionOutcome :=
  if a.action_type == "bad" then .raises "boom" else .produced true "ok" (.obj [])

/-- Witness for C6 on the five-action plan with the third handler raising. -/
theorem C6_execution_isolation_witness :
    (executionAgentExecute (some c6Pr) c6Handler).actions_executed.length = 5 ∧
    (executionAgentExecute (some c6Pr) c6Handler).success_count
      + (executionAgentExecute (some c6Pr) c6Handler).failure_count = 5 ∧
    ((executionAgentExecute (some c6Pr) c6Handler).success = true ↔
      (executionAgentExecute (some c6Pr) c6Handler).failure_count = 0) ∧
    (executionAgentExecute (some c6Pr) c6Handler).actions_executed[2]? =
      some ({ action_id := "a3", success := false, message := "Execution failed: boom",
              data := JValue.obj [], error := some "boom" } : ActionResult) := by
  have h := C6_execution_isolation c6Pr c6Plan c6Handler rfl
  exact ⟨h.1, h.2.1, h.2.2.1, h.2.2.2 2 c6Action3 "boom" rfl rfl⟩

/-! ## C10 — execution with no plan -/

/-- C10: with no `PlanningResult` in history, or one whose plan is `None`,
the Execution stage does not fail: it returns the fixed successful result
with `success = true`, `confidence = 1.0`, `plan_id = "none"`, no executed
actions, and the message `"No plan to execute"`. -/
theorem C10_execution_without_plan (handler : ActionModel → ActionOutcome)
    (pr : PlanningResult) (hnone : pr.plan = none) :
    executionAgentExecute none handler = executionNoPlanResult ∧
    executionAgentExecute (some pr) handler = executionNoPlanResult ∧
    executionNoPlanResult.success = true ∧
    executionNoPlanResult.confidence = 1.0 ∧
    executionNoPlanResult.plan_id = "none" ∧
    executionNoPlanResult.actions_executed = [] ∧
    executionNoPlanResult.message = "No plan to execute" := by
  refine ⟨rfl, ?_, rfl, rfl, rfl, rfl, rfl⟩
  simp [executionAgentExecute, hnone]

/-- Witness for C10 at a concrete plan-less planning result and handler. -/
theorem C10_execution_without_plan_witness :
    executionAgentExecute none c6Handler = executionNoPlanResult ∧
    executionAgentExecute (some planningNoProblemsResult) c6Handler = executionNoPlanResult ∧
    executionNoPlanResult.success = true ∧
    executionNoPlanResult.confidence = 1.0 ∧
    executionNoPlanResult.plan_id = "none" ∧
    executionNoPlanResult.actions_executed = [] ∧
    executionNoPlanResult.message = "No plan to execute" :=
  C10_execution_without_plan c6Handler planningNoProblemsResult rfl

/-! ## C7 — confidence level consistency -/

/-- The four-bucket mapping sends confidence 1.0 to `very_high` (used by the
hard-coded fallback results, which set `confidence_level="very_high"` next to
`confidence=1.0`). -/
lemma confidenceLevelOf_one : confidenceLevelOf 1.0 = .very_high := by
  unfold confidenceLevelOf
  norm_num

/-- C7: every result any of the six agents can produce satisfies the
invariant `confidence_level = confidenceLevelOf confidence` — the main paths
all call the shared `_get_confidence_level` helper, and the fallback paths'
literal `"very_high"` agrees with the mapping at their literal
`confidence=1.0`. -/
theorem C7_confidence_level_consistent :
    (∀ (resp : JValue) (r : DetectionResult), detectionAgentExecute resp = .ok r →
       r.confidence_level = confidenceLevelOf r.confidence) ∧
    (∀ (det : Option DetectionResult) (resp : JValue) (r : AnalysisResult),
       analysisAgentExecute det resp = .ok r →
       r.confidence_level = confidenceLevelOf r.confidence) ∧
    (∀ (ana : Option AnalysisResult) (resp : JValue) (r : PlanningResult),
       planningAgentExecute ana resp = .ok r →
       r.confidence_level = confidenceLevelOf r.confidence) ∧
    (∀ (planning : Option PlanningResult) (handler : ActionModel → ActionOutcome),
       (executionAgentExecute planning handler).confidence_level
         = confidenceLevelOf (executionAgentExecute planning handler).confidence) ∧
    (∀ (resp : JValue) (r : ReportingResult), reportingAgentExecute resp = .ok r →
       r.confidence_level = confidenceLevelOf r.confidence) ∧
    (∀ (wid : String) (resp : JValue) (r : LearningResult),
       learningAgentExecute wid resp = .ok r →
       r.confidence_level = confidenceLevelOf r.confidence) := by
  refine ⟨?_, ?_, ?_, ?_, ?_, ?_⟩
  · intro resp r h
    unfold detectionAgentExecute at h
    repeat' split at h
    all_goals first
      | exact Except.noConfusion h
      | (injection h with h; subst h; simp [confidenceLevelOf_one])
  · intro det resp r h
    unfold analysisAgentExecute at h
    repeat' split at h
    all_goals first
      | exact Except.noConfusion h
      | (injection h with h; subst h;
         simp [analysisNoProblemsResult, confidenceLevelOf_one])
  · intro ana resp r h
    unfold planningAgentExecute at h
    repeat' split at h
    all_goals first
      | exact Except.noConfusion h
      | (injection h with h; subst h;
         simp [planningNoProblemsResult, confidenceLevelOf_one])
  · intro planning handler
    match planning with
    | none => simp [executionAgentExecute, executionNoPlanResult, confidenceLevelOf_one]
    | some pr =>
      cases hplan : pr.plan with
      | none =>
        simp [executionAgentExecute, hplan, executionNoPlanResult, confidenceLevelOf_one]
      | some plan =>
        rcases hr : runActions handler plan.actions with ⟨rs, sc, fc⟩
        simp [executionAgentExecute, hplan, hr]
  · intro resp r h
    unfold reportingAgentExecute at h
    repeat' split at h
    all_goals first
      | exact Except.noConfusion h
      | (injection h with h; subst h; simp [confidenceLevelOf_one])
  · intro wid resp r h
    unfold learningAgentExecute at h
    repeat' split at h
    all_goals first
      | exact Except.noConfusion h
      | (injection h with h; subst h; simp [confidenceLevelOf_one])

/-- A reporting LLM response used in C7's witness. -/
def c7RepResp : JValue :=
  .obj [("report", .str "all good"), ("metrics", .obj []), ("confidence", .num 0.95)]

/-- The reporting result produced on `c7RepResp`. -/
def c7Rep : ReportingResult :=
  { success := true, message := "Report generated successfully", confidence := 0.95,
    confidence_level := .very_high, report := "all good", metrics := .obj [],
    recommendations := [] }

/-- `ReportingAgent.execute` evaluates `c7RepResp` to `c7Rep`. -/
lemma c7_rep_eval : reportingAgentExecute c7RepResp = Except.ok c7Rep := by
  simp [reportingAgentExecute, validateReportingOutput, jHas, getRatD, getStrD, asStr,
    getObjD, getStrList, confidenceLevelOf, c7RepResp, c7Rep,
    jGet_obj_cons, jGet_obj_nil, rat95_facts.1, rat95_facts.2.1, rat95_facts.2.2]

/-- A learning LLM response used in C7's witness. -/
def c7LearnResp : JValue :=
  .obj [("insights", .arr []), ("recommendations", .arr []), ("confidence", .num 0.95)]

/-- The learning result produced on `c7LearnResp`. -/
def c7Learn : LearningResult :=
  { success := true, message := "Learning complete: 0 insights generated", confidence := 0.95,
    confidence_level := .very_high, insights := [], patterns_found := 0,
    recommendations := [], learning_summary := "Learning analysis complete" }

/-- `LearningAgent.execute` evaluates `c7LearnResp` to `c7Learn`. -/
lemma c7_learn_eval : learningAgentExecute "wf-1" c7LearnResp = Except.ok c7Learn := by
  simp [learningAgentExecute, validateLearningOutput, jHas, getRatD, getStrD, asStr,
    getIntD, getStrList, confidenceLevelOf, c7LearnResp, c7Learn, List.mapM, List.mapM.loop,
    pure, Except.pure, jGet_obj_cons, jGet_obj_nil, rat95_facts.1, rat95_facts.2.1,
    rat95_facts.2.2]
  rfl

/-- Witness for C7: concrete results of all six agents satisfy the
invariant. -/
theorem C7_confidence_level_consistent_witness :
    c1Det.confidence_level = confidenceLevelOf c1Det.confidence ∧
    analysisNoProblemsResult.confidence_level
      = confidenceLevelOf analysisNoProblemsResult.confidence ∧
    planningNoProblemsResult.confidence_level
      = confidenceLevelOf planningNoProblemsResult.confidence ∧
    (executionAgentExecute (some c6Pr) c6Handler).confidence_level
      = confidenceLevelOf (executionAgentExecute (some c6Pr) c6Handler).confidence ∧
    c7Rep.confidence_level = confidenceLevelOf c7Rep.confidence ∧
    c7Learn.confidence_level = confidenceLevelOf c7Learn.confidence :=
  ⟨C7_confidence_level_consistent.1 c1Resp c1Det c1_det_eval,
   C7_confidence_level_consistent.2.1 none .null analysisNoProblemsResult rfl,
   C7_confidence_level_consistent.2.2.1 none .null planningNoProblemsResult rfl,
   C7_confidence_level_consistent.2.2.2.1 (some c6Pr) c6Handler,
   C7_confidence_level_consistent.2.2.2.2.1 c7RepResp c7Rep c7_rep_eval,
   C7_confidence_level_consistent.2.2.2.2.2 "wf-1" c7LearnResp c7Learn c7_learn_eval⟩

/-! ## C8 — learning storage round-trip -/

/-- C8 counterexample: the claim's universal "retrieval with limit < N
returns only the most recent limit items" fails at `limit = 0`: Python's
slice `data[-0:]` is the whole list, so after storing one metric,
`get_recent_metrics(limit=0)` returns that metric instead of zero items. -/
theorem C8_counterexample_limit_zero :
    storeMetric "A" ([] : List String) = ["A"] ∧
    0 < (storeMetric "A" ([] : List String)).length ∧
    getRecentMetrics (storeMetric "A" ([] : List String)) 0 = ["A"] ∧
    getRecentMetrics (storeMetric "A" ([] : List String)) 0 ≠ ([] : List String) := by
  refine ⟨rfl, by decide, rfl, by simp [getRecentMetrics, storeMetric, pySliceLast]⟩

/-- C8 amended: metrics stored in order A, B, C and retrieved with
`limit = 2` come back as `[C, B]`; in general, for every `limit ≥ 1`
retrieval returns the `min(limit, N)` most recently stored items in
reverse-chronological order (`l.reverse.take limit`).  For `limit = 0` the
code returns *all* stored items (most recent first) because the Python slice
`data[-0:]` is the whole list. -/
theorem C8_storage_roundtrip_amended :
    getRecentMetrics (storeMetric "C" (storeMetric "B" (storeMetric "A" ([] : List String)))) 2
      = ["C", "B"] ∧
    (∀ {α : Type} (l : List α) (limit : Nat), 1 ≤ limit →
       getRecentMetrics l limit = l.reverse.take limit) := by
  constructor
  · rfl
  · intro α l limit h1
    rcases Nat.lt_or_ge limit l.length with hlt | hge
    · have hcond : l.length > limit := hlt
      have hne : limit ≠ 0 := Nat.one_le_iff_ne_zero.mp h1
      simp only [getRecentMetrics, pySliceLast]
      rw [if_pos hcond, if_neg hne, List.reverse_drop]
      congr 1
      omega
    · simp only [getRecentMetrics]
      rw [if_neg (by omega)]
      rw [List.take_of_length_le (by simpa using hge)]

/-- Witness for the amended C8's general clause at a two-element store with
`limit = 1`. -/
theorem C8_storage_roundtrip_amended_witness :
    getRecentMetrics ["A", "B"] 1 = (["A", "B"] : List String).reverse.take 1 :=
  C8_storage_roundtrip_amended.2 ["A", "B"] 1 (by decide)

/-! ## C9 — approve outside the gate -/

/-- C9 counterexample: `approve_plan` is not a no-op outside
`PendingApproval`.  It always sets the approval flag, and a run that receives
the approve signal before reaching the gate (here: during Detection) passes
the gate without blocking and completes, while the identical run without the
early signal blocks and — after the 24-hour timeout — fails.  The observable
behaviour differs, refuting "leaves the run's observable behaviour and state
unchanged". -/
theorem C9_counterexample_early_approve_not_noop :
    (approvePlan initState).plan_approved = true ∧
    initState.plan_approved = false ∧
    (runWorkflow "wf-1" sampleInput { baseEnv with approvedEarly := true }).2.status
      = WorkflowStatus.completed ∧
    (runWorkflow "wf-1" sampleInput baseEnv).2.status = WorkflowStatus.failed :=
  ⟨rfl, rfl, rfl, rfl⟩

/-- A fully successful tail run: all three post-gate activities succeed. -/
lemma runFromExecution_all_ok (wid : String) (env : RunEnv) (s : RunState)
    (ex : ExecutionResult) (rep : ReportingResult) (lr : LearningResult)
    (hex : env.execution = .ok ex) (hrep : env.reporting = .ok rep)
    (hlr : env.learning = .ok lr) :
    (runFromExecution wid env s).2.status = .completed ∧
    (runFromExecution wid env s).2.summary = "Workflow completed successfully" ∧
    (runFromExecution wid env s).2.execution_result = some ex ∧
    (runFromExecution wid env s).2.reporting_result = some rep ∧
    (runFromExecution wid env s).2.learning_result = some lr := by
  unfold runFromExecution
  simp [hex, hrep, hlr, setStatus, buildResult]

/-- C9 amended: `approve_plan` never raises, in any state — it is a total
state update that sets the approval flag and touches nothing else.  Outside
`PendingApproval` it is *not* behaviourally inert: a run holding an early
approve signal passes the gate immediately when it is reached and (when the
remaining stages succeed) terminates `Completed` instead of blocking. -/
theorem C9_approve_sets_flag_and_preapproves :
    (∀ s : RunState, (approvePlan s).plan_approved = true ∧
       (approvePlan s).status = s.status ∧
       (approvePlan s).history = s.history ∧
       (approvePlan s).trace = s.trace) ∧
    (∀ (wid : String) (input : DAPERLInput) (env : RunEnv)
       (det : DetectionResult) (ana : AnalysisResult) (pr : PlanningResult)
       (ex : ExecutionResult) (rep : ReportingResult) (lr : LearningResult),
       env.detection = .ok det → det.problems_detected = true →
       env.analysis = .ok ana → env.planning = .ok pr →
       env.approvedEarly = true →
       env.execution = .ok ex → env.reporting = .ok rep → env.learning = .ok lr →
       (runWorkflow wid input env).2.status = .completed ∧
       (runWorkflow wid input env).2.execution_result = some ex) := by
  constructor
  · intro s
    exact ⟨rfl, rfl, rfl, rfl⟩
  · intro wid input env det ana pr ex rep lr hd hpd ha hp hearly hex hrep hlr
    rw [runWorkflow_reaches_gate wid input env det ana pr hd hpd ha hp]
    obtain ⟨s', heq, _, _, _⟩ :=
      approvalGate_passed wid input env pr (postPlanningState det ana pr)
        (Or.inr (Or.inr (Or.inl hearly)))
    rw [heq]
    have h := runFromExecution_all_ok wid env s' ex rep lr hex hrep hlr
    exact ⟨h.1, h.2.2.1⟩

/-- Witness for the amended C9 at a concrete early-approved run. -/
theorem C9_approve_sets_flag_and_preapproves_witness :
    (approvePlan initState).plan_approved = true ∧
    (runWorkflow "wf-1" sampleInput { baseEnv with approvedEarly := true }).2.status
      = WorkflowStatus.completed ∧
    (runWorkflow "wf-1" sampleInput { baseEnv with approvedEarly := true }).2.execution_result
      = some sampleEx :=
  ⟨(C9_approve_sets_flag_and_preapproves.1 initState).1,
   (C9_approve_sets_flag_and_preapproves.2 "wf-1" sampleInput
      { baseEnv with approvedEarly := true } sampleDet sampleAna samplePr
      sampleEx sampleRep sampleLr rfl rfl rfl rfl rfl rfl rfl rfl).1,
   (C9_approve_sets_flag_and_preapproves.2 "wf-1" sampleInput
      { baseEnv with approvedEarly := true } sampleDet sampleAna samplePr
      sampleEx sampleRep sampleLr rfl rfl rfl rfl rfl rfl rfl rfl).2⟩

end Daperl
